import Mathlib

/-!
Shallow embedding of selected fwupd operations, translated from the C
sources, together with theorems settling the specification claims about
them.  Machine integers are modelled as Nat (every value manipulated here
is far below any overflow boundary, which is noted where relevant);
GLib-style fallible calls returning gboolean with a GError out-parameter
are modelled as Except values.
-/

/-! ## Common error model (fwupd error domain) -/

/-- Error codes of the FWUPD_ERROR domain used by the embedded code.
The anotherInstanceRunning constructor does not occur anywhere in the
sources; it is included so that statements about that alleged error kind
can be expressed and refuted. -/
inductive FwupdErrorKind where
  | internal
  | notSupported
  | invalidData
  | invalidFile
  | invalidArgs
  | nothingToDo
  | notReachable
  | notFound
  | anotherInstanceRunning
  deriving DecidableEq

/-- A GError restricted to the FWUPD_ERROR domain: an error code plus a
human-readable message. -/
structure GErrorM where
  kind : FwupdErrorKind
  message : String
  deriving DecidableEq

/-! ## fu_common_guid_is_plausible (src/libfwupdplugin/fu-common-guid.c) -/

/-- The byte sum computed by the loop in fu_common_guid_is_plausible:
sixteen iterations over the buffer pointer.  Reading past the end of the
modelled list yields 0, matching the fact that the C function is only
ever handed 16-byte buffers.  The running guint sum cannot overflow
(16 * 255 = 4080). -/
def fu_common_guid_sum (buf : List Nat) : Nat :=
  (List.range 16).foldl (fun s i => s + buf.getD i 0) 0

/-- Translation of fu_common_guid_is_plausible: sums the 16 bytes, then
returns FALSE when the sum is 0, FALSE when the sum is below 0xff, and
TRUE otherwise. -/
def fu_common_guid_is_plausible (buf : List Nat) : Bool :=
  let sum := fu_common_guid_sum buf
  if sum = 0 then false
  else if sum < 0xff then false
  else true

lemma fu_common_guid_sum_eq_take (buf : List Nat) :
    ∀ n : Nat, (List.range n).foldl (fun s i => s + buf.getD i 0) 0 = (buf.take n).sum := by
  intro n
  induction n with
  | zero => simp
  | succ n ih =>
    rw [List.range_succ, List.foldl_append, ih]
    simp only [List.foldl_cons, List.foldl_nil]
    rw [List.take_succ]
    simp only [List.sum_append, List.getD_eq_getElem?_getD]
    cases buf[n]? <;> simp

lemma fu_common_guid_sum_eq (buf : List Nat) (h : buf.length = 16) :
    fu_common_guid_sum buf = buf.sum := by
  have := fu_common_guid_sum_eq_take buf 16
  rw [fu_common_guid_sum, this, ← h, List.take_length]

/-- C1: a 16-byte buffer is accepted iff it is not all-zero and its byte
sum is at least 255; equivalently it is rejected exactly when the byte
sum is below 0xff. -/
theorem C1_guid_is_plausible_iff (buf : List Nat) (h : buf.length = 16) :
    ( fu_common_guid_is_plausible buf = true ↔
      (¬ ∀ b ∈ buf, b = 0) ∧ 255 ≤ buf.sum) ∧
    ( fu_common_guid_is_plausible buf = false ↔ buf.sum < 255) := by
  have hsum := fu_common_guid_sum_eq buf h
  have hzero : buf.sum = 0 ↔ ∀ b ∈ buf, b = 0 := List.sum_eq_zero_iff
  constructor
  · rw [ fu_common_guid_is_plausible]
    simp only [hsum]
    constructor
    · intro ht
      by_cases h0 : buf.sum = 0
      · simp [h0] at ht
      · by_cases hlt : buf.sum < 0xff
        · simp [h0, hlt] at ht
        · exact ⟨fun hall => h0 (hzero.mpr hall), by omega⟩
    · rintro ⟨hnz, hge⟩
      have h0 : ¬ buf.sum = 0 := by omega
      have hlt : ¬ buf.sum < 0xff := by omega
      simp [h0, hlt]
  · rw [ fu_common_guid_is_plausible]
    simp only [hsum]
    constructor
    · intro hf
      by_cases h0 : buf.sum = 0
      · omega
      · by_cases hlt : buf.sum < 0xff
        · omega
        · simp [h0, hlt] at hf
    · intro hlt
      by_cases h0 : buf.sum = 0
      · simp [h0]
      · simp [h0, hlt]

/-- Witness for C1: the buffer of sixteen 0x10 bytes (sum 256) is
accepted, and the conclusion instantiates as stated. -/
theorem C1_guid_is_plausible_iff_witness :
    (List.replicate 16 0x10).length = 16 ∧
      ( fu_common_guid_is_plausible (List.replicate 16 0x10) = true ↔
        (¬ ∀ b ∈ List.replicate 16 0x10, b = 0) ∧ 255 ≤ (List.replicate 16 0x10).sum) :=
  ⟨by decide, (C1_guid_is_plausible_iff (List.replicate 16 0x10) (by decide)).1⟩

/-! ## Device flags (fwupd device flag bitset, as a predicate) -/

/-- The device flags the embedded code manipulates. -/
inductive FuDeviceFlag where
  | updatable
  | updatableHidden
  | isBootloader
  | waitForReplug
  | signedPayload
  | unsignedPayload
  | hasMultipleBranches
  | emulated
  deriving DecidableEq

/-- A device as seen by the embedded client/plugin code: identity fields
plus the flag bitset (modelled as a Boolean-valued function). -/
structure FuDeviceM where
  id : String
  name : String
  version : String
  branch : Option String
  guids : List String
  flags : FuDeviceFlag → Bool

/-- fu_device_add_flag: set one flag, leave everything else unchanged. -/
def fu_device_add_flag (self : FuDeviceM) (flag : FuDeviceFlag) : FuDeviceM :=
  { self with flags := fun f => if f = flag then true else self.flags f }

/-- fu_device_remove_flag: clear one flag, leave everything else unchanged. -/
def fu_device_remove_flag (self : FuDeviceM) (flag : FuDeviceFlag) : FuDeviceM :=
  { self with flags := fun f => if f = flag then false else self.flags f }

/-! ## fu_fresco_pd_device_panther_reset_device
(src/plugins/fresco-pd/fu-fresco-pd-device.c, lines 215-235)

The register or-write fu_fresco_pd_device_or_byte is a USB transfer whose
outcome depends on the hardware; it is passed in as an oracle of type
Except GErrorM Unit (ok = the C function returned TRUE). -/

/-- Translation of fu_fresco_pd_device_panther_reset_device: add the
wait-for-replug flag, then perform the or-write on register 0xA003; an
FWUPD_ERROR_INTERNAL failure is swallowed (returns TRUE), any other
failure is propagated prefixed with the context phrase. -/
def fu_fresco_pd_device_panther_reset_device (self : FuDeviceM)
    (orByteResult : Except GErrorM Unit) : FuDeviceM × Except GErrorM Unit :=
  let self := fu_device_add_flag self FuDeviceFlag.waitForReplug
  match orByteResult with
  | Except.ok _ => (self, Except.ok ())
  | Except.error e =>
    if e.kind = FwupdErrorKind.internal then
      (self, Except.ok ())
    else
      (self, Except.error { e with message := "failed to reset device: " ++ e.message })

/-- C2: the reset swallows Internal errors as success, propagates every
other error kind with the context phrase prefixed, and sets the
wait-for-replug flag in every case. -/
theorem C2_panther_reset_device (self : FuDeviceM) (orByteResult : Except GErrorM Unit) :
    ((fu_fresco_pd_device_panther_reset_device self orByteResult).1.flags
        FuDeviceFlag.waitForReplug = true) ∧
    (orByteResult = Except.ok () →
      (fu_fresco_pd_device_panther_reset_device self orByteResult).2 = Except.ok ()) ∧
    (∀ e : GErrorM, orByteResult = Except.error e →
      (e.kind = FwupdErrorKind.internal →
        (fu_fresco_pd_device_panther_reset_device self orByteResult).2 = Except.ok ()) ∧
      (e.kind ≠ FwupdErrorKind.internal →
        (fu_fresco_pd_device_panther_reset_device self orByteResult).2 =
          Except.error ⟨e.kind, "failed to reset device: " ++ e.message⟩)) := by
  refine ⟨?_, ?_, ?_⟩
  · cases orByteResult with
    | ok u => simp [fu_fresco_pd_device_panther_reset_device, fu_device_add_flag]
    | error e =>
      by_cases h : e.kind = FwupdErrorKind.internal <;>
        simp [fu_fresco_pd_device_panther_reset_device, fu_device_add_flag, h]
  · intro h
    subst h
    rfl
  · intro e he
    subst he
    constructor
    · intro h
      simp [fu_fresco_pd_device_panther_reset_device, h]
    · intro h
      simp [fu_fresco_pd_device_panther_reset_device, h]

/-- Witness for C2: a concrete device and a concrete Internal error from
the or-write; the reset reports success. -/
theorem C2_panther_reset_device_witness :
    (fu_fresco_pd_device_panther_reset_device
        ⟨"usb-1", "Fresco PD", "1.0.0.0", none, [], fun _ => false⟩
        (Except.error ⟨FwupdErrorKind.internal, "transfer aborted"⟩)).2 = Except.ok () :=
  ((C2_panther_reset_device
      ⟨"usb-1", "Fresco PD", "1.0.0.0", none, [], fun _ => false⟩
      (Except.error ⟨FwupdErrorKind.internal, "transfer aborted"⟩)).2.2
    ⟨FwupdErrorKind.internal, "transfer aborted"⟩ rfl).1 rfl

/-! ## Progress percentage sequences (C3)

fu_progress_set_percentage_full lives in libfwupdplugin outside src/. -/

/-- Modelled from the spec: fu_progress_set_percentage_full converts a
completed/total pair into a percentage in 0..100 for the progress node
(the Progress Tree carries a current percentage 0..100). -/
def fu_progress_set_percentage_full (progress_done progress_total : Nat) : Nat :=
  progress_done * 100 / progress_total

/-- The percentage sequence emitted by the body-fill loop of
fu_fresco_pd_device_write_firmware (lines 334-343): one update per
byte_index at (byte_index + 1) / 0x4000. -/
def fresco_body_fill_percentages : List Nat :=
  (List.range 0x4000).map (fun byte_index =>
    fu_progress_set_percentage_full (byte_index + 1) 0x4000)

/-- The percentage sequence emitted by the chunk loop of
fu_rts54hub_rtd21xx_foreground_write_firmware (lines 349-376): one
update per chunk at (i + 1) / chunk-count. -/
def rts54_chunk_percentages (chunkCount : Nat) : List Nat :=
  (List.range chunkCount).map (fun i =>
    fu_progress_set_percentage_full (i + 1) chunkCount)

lemma percentage_mono (total : Nat) :
    ∀ i j : Nat, i ≤ j →
      fu_progress_set_percentage_full (i + 1) total ≤
        fu_progress_set_percentage_full (j + 1) total := by
  intro i j hij
  exact Nat.div_le_div_right (Nat.mul_le_mul_right _ (by omega))

/-- C3: within one write_firmware operation both emitted percentage
sequences are monotonically non-decreasing (pairwise, hence also between
any two updates for the same node). -/
theorem C3_progress_monotone :
    fresco_body_fill_percentages.Sorted (· ≤ ·) ∧
    ∀ chunkCount : Nat, (rts54_chunk_percentages chunkCount).Sorted (· ≤ ·) := by
  constructor
  · rw [fresco_body_fill_percentages, List.Sorted]
    refine List.Pairwise.map _ ?_ (List.pairwise_lt_range 0x4000)
    intro a b hab
    exact percentage_mono 0x4000 a b (Nat.le_of_lt hab)
  · intro n
    rw [rts54_chunk_percentages, List.Sorted]
    refine List.Pairwise.map _ ?_ (List.pairwise_lt_range n)
    intro a b hab
    exact percentage_mono n a b (Nat.le_of_lt hab)

/-! ## fu_logitech_hidpp_bootloader_replace
(src/plugins/logitech-hidpp/fu-logitech-hidpp-bootloader.c, lines 398-403) -/

/-- Modelled from the spec: fu_device_incorporate_flag (the replace
capability "copies a flag subset across a replug"); the named flag of the
new device is made equal to the donor's, other state is untouched. -/
def fu_device_incorporate_flag (self donor : FuDeviceM) (flag : FuDeviceFlag) : FuDeviceM :=
  if donor.flags flag ∧ ¬ self.flags flag then
    fu_device_add_flag self flag
  else if ¬ donor.flags flag ∧ self.flags flag then
    fu_device_remove_flag self flag
  else
    self

/-- Translation of fu_logitech_hidpp_bootloader_replace: incorporate the
signed-payload flag, then the unsigned-payload flag, from the donor. -/
def fu_logitech_hidpp_bootloader_replace (device donor : FuDeviceM) : FuDeviceM :=
  fu_device_incorporate_flag
    (fu_device_incorporate_flag device donor FuDeviceFlag.signedPayload)
    donor FuDeviceFlag.unsignedPayload

lemma incorporate_flag_same (self donor : FuDeviceM) (flag : FuDeviceFlag) :
    (fu_device_incorporate_flag self donor flag).flags flag = donor.flags flag := by
  rw [fu_device_incorporate_flag]
  by_cases hd : donor.flags flag = true <;> by_cases hs : self.flags flag = true <;>
    simp [hd, hs, fu_device_add_flag, fu_device_remove_flag]

lemma incorporate_flag_other (self donor : FuDeviceM) (flag f : FuDeviceFlag)
    (hf : f ≠ flag) :
    (fu_device_incorporate_flag self donor flag).flags f = self.flags f := by
  rw [fu_device_incorporate_flag]
  by_cases hd : donor.flags flag = true <;> by_cases hs : self.flags flag = true <;>
    simp [hd, hs, fu_device_add_flag, fu_device_remove_flag, hf]

lemma incorporate_flag_fields (self donor : FuDeviceM) (flag : FuDeviceFlag) :
    (fu_device_incorporate_flag self donor flag).id = self.id ∧
    (fu_device_incorporate_flag self donor flag).name = self.name ∧
    (fu_device_incorporate_flag self donor flag).version = self.version ∧
    (fu_device_incorporate_flag self donor flag).branch = self.branch ∧
    (fu_device_incorporate_flag self donor flag).guids = self.guids := by
  rw [fu_device_incorporate_flag]
  by_cases hd : donor.flags flag = true <;> by_cases hs : self.flags flag = true <;>
    simp [hd, hs, fu_device_add_flag, fu_device_remove_flag]

/-- C9: replace copies exactly the signed-payload and unsigned-payload
flags from the donor; every other flag and every other field of the new
device is unchanged. -/
theorem C9_bootloader_replace (device donor : FuDeviceM) :
    ((fu_logitech_hidpp_bootloader_replace device donor).flags FuDeviceFlag.signedPayload =
        donor.flags FuDeviceFlag.signedPayload) ∧
    ((fu_logitech_hidpp_bootloader_replace device donor).flags FuDeviceFlag.unsignedPayload =
        donor.flags FuDeviceFlag.unsignedPayload) ∧
    (∀ f : FuDeviceFlag, f ≠ FuDeviceFlag.signedPayload → f ≠ FuDeviceFlag.unsignedPayload →
      (fu_logitech_hidpp_bootloader_replace device donor).flags f = device.flags f) ∧
    (fu_logitech_hidpp_bootloader_replace device donor).id = device.id ∧
    (fu_logitech_hidpp_bootloader_replace device donor).name = device.name ∧
    (fu_logitech_hidpp_bootloader_replace device donor).version = device.version ∧
    (fu_logitech_hidpp_bootloader_replace device donor).branch = device.branch ∧
    (fu_logitech_hidpp_bootloader_replace device donor).guids = device.guids := by
  have step1 := incorporate_flag_fields device donor FuDeviceFlag.signedPayload
  have step2 := incorporate_flag_fields
    (fu_device_incorporate_flag device donor FuDeviceFlag.signedPayload) donor
    FuDeviceFlag.unsignedPayload
  refine ⟨?_, ?_, ?_, ?_, ?_, ?_, ?_, ?_⟩
  · rw [fu_logitech_hidpp_bootloader_replace,
      incorporate_flag_other _ _ _ _ (by decide), incorporate_flag_same]
  · rw [fu_logitech_hidpp_bootloader_replace, incorporate_flag_same]
  · intro f h1 h2
    rw [fu_logitech_hidpp_bootloader_replace,
      incorporate_flag_other _ _ _ _ h2, incorporate_flag_other _ _ _ _ h1]
  · rw [fu_logitech_hidpp_bootloader_replace]; rw [step2.1, step1.1]
  · rw [fu_logitech_hidpp_bootloader_replace]; rw [step2.2.1, step1.2.1]
  · rw [fu_logitech_hidpp_bootloader_replace]; rw [step2.2.2.1, step1.2.2.1]
  · rw [fu_logitech_hidpp_bootloader_replace]; rw [step2.2.2.2.1, step1.2.2.2.1]
  · rw [fu_logitech_hidpp_bootloader_replace]; rw [step2.2.2.2.2, step1.2.2.2.2]

/-- Witness for C9: with a donor carrying signed-payload and a device
carrying updatable, replace copies the donor's flag and keeps updatable. -/
theorem C9_bootloader_replace_witness :
    (fu_logitech_hidpp_bootloader_replace
        ⟨"d", "new", "1", none, [], fun f => f = FuDeviceFlag.updatable⟩
        ⟨"o", "donor", "2", none, [], fun f => f = FuDeviceFlag.signedPayload⟩).flags
      FuDeviceFlag.updatable =
      (⟨"d", "new", "1", none, [], fun f => f = FuDeviceFlag.updatable⟩ : FuDeviceM).flags
        FuDeviceFlag.updatable :=
  (C9_bootloader_replace
      ⟨"d", "new", "1", none, [], fun f => f = FuDeviceFlag.updatable⟩
      ⟨"o", "donor", "2", none, [], fun f => f = FuDeviceFlag.signedPayload⟩).2.2.1
    FuDeviceFlag.updatable (by decide) (by decide)

/-! ## CLI exit codes (C6)
(src/src/fu-tool.c main, lines 5859-5899; src/src/fu-util.c main,
lines 5929-5951)

The EXIT_NOTHING_TO_DO / EXIT_NOT_REACHABLE / EXIT_NOT_FOUND constants
are defined in fu-util-common.h, outside src/. -/

/-- Modelled from the spec: exit code 2, nothing-to-do. -/
def EXIT_NOTHING_TO_DO : Nat := 2

/-- Modelled from the spec: exit code 3, not-reachable. -/
def EXIT_NOT_REACHABLE : Nat := 3

/-- Modelled from the spec: exit code 4, not-found. -/
def EXIT_NOT_FOUND : Nat := 4

/-- The outcome of running the command array: TRUE, or FALSE with a set
GError.  An error raised outside the FWUPD_ERROR domain never matches
g_error_matches(error, FWUPD_ERROR, ...) and is modelled as none. -/
def CmdOutcome : Type := Option (Option FwupdErrorKind)

/-- Translation of the tail of main in fu-tool.c: on success return
EXIT_SUCCESS; on failure the invalid-args branch only prints a hint and
falls through, nothing-to-do / not-reachable / not-found map to their
dedicated codes, and everything else returns EXIT_FAILURE.
The outcome argument is none on success, or some err where err is the
FWUPD_ERROR code of the failure (none when the error is from another
domain). -/
def fu_tool_main_exit_code (asJson : Bool) (outcome : Option (Option FwupdErrorKind)) : Nat :=
  match outcome with
  | none => 0
  | some err =>
    if ¬ asJson ∧ err = some FwupdErrorKind.invalidArgs then
      1
    else if err = some FwupdErrorKind.nothingToDo then
      EXIT_NOTHING_TO_DO
    else if err = some FwupdErrorKind.notReachable then
      EXIT_NOT_REACHABLE
    else if err = some FwupdErrorKind.notFound then
      EXIT_NOT_FOUND
    else
      1

/-- Translation of the tail of main in fu-util.c: identical mapping. -/
def fu_util_main_exit_code (asJson : Bool) (outcome : Option (Option FwupdErrorKind)) : Nat :=
  match outcome with
  | none => 0
  | some err =>
    if ¬ asJson ∧ err = some FwupdErrorKind.invalidArgs then
      1
    else if err = some FwupdErrorKind.nothingToDo then
      EXIT_NOTHING_TO_DO
    else if err = some FwupdErrorKind.notReachable then
      EXIT_NOT_REACHABLE
    else if err = some FwupdErrorKind.notFound then
      EXIT_NOT_FOUND
    else
      1

/-- C6: for both CLI binaries the exit code is 0 on success, 2 for a
NothingToDo failure, 3 for NotReachable, 4 for NotFound, and 1 for every
other failure. -/
theorem C6_cli_exit_codes (asJson : Bool) (outcome : Option (Option FwupdErrorKind)) :
    fu_tool_main_exit_code asJson outcome = fu_util_main_exit_code asJson outcome ∧
    (outcome = none → fu_tool_main_exit_code asJson outcome = 0) ∧
    (∀ err : Option FwupdErrorKind, outcome = some err →
      fu_tool_main_exit_code asJson outcome =
        if err = some FwupdErrorKind.nothingToDo then 2
        else if err = some FwupdErrorKind.notReachable then 3
        else if err = some FwupdErrorKind.notFound then 4
        else 1) := by
  refine ⟨rfl, ?_, ?_⟩
  · intro h; subst h; rfl
  · intro err h
    subst h
    cases asJson with
    | false =>
      by_cases h1 : err = some FwupdErrorKind.invalidArgs
      · subst h1
        simp [fu_tool_main_exit_code]
      · by_cases h2 : err = some FwupdErrorKind.nothingToDo <;>
          by_cases h3 : err = some FwupdErrorKind.notReachable <;>
          by_cases h4 : err = some FwupdErrorKind.notFound <;>
          simp_all [fu_tool_main_exit_code,
            EXIT_NOTHING_TO_DO, EXIT_NOT_REACHABLE, EXIT_NOT_FOUND]
    | true =>
      by_cases h2 : err = some FwupdErrorKind.nothingToDo <;>
        by_cases h3 : err = some FwupdErrorKind.notReachable <;>
        by_cases h4 : err = some FwupdErrorKind.notFound <;>
        simp_all [fu_tool_main_exit_code,
          EXIT_NOTHING_TO_DO, EXIT_NOT_REACHABLE, EXIT_NOT_FOUND]

/-- Witness for C6: a NotFound command failure exits with code 4. -/
theorem C6_cli_exit_codes_witness :
    fu_tool_main_exit_code false (some (some FwupdErrorKind.notFound)) =
      if (some FwupdErrorKind.notFound : Option FwupdErrorKind) =
          some FwupdErrorKind.nothingToDo then 2
      else if (some FwupdErrorKind.notFound : Option FwupdErrorKind) =
          some FwupdErrorKind.notReachable then 3
      else if (some FwupdErrorKind.notFound : Option FwupdErrorKind) =
          some FwupdErrorKind.notFound then 4
      else 1 :=
  (C6_cli_exit_codes false (some (some FwupdErrorKind.notFound))).2.2
    (some FwupdErrorKind.notFound) rfl

/-! ## fu_fresco_pd_device_set_byte and the write_firmware body fill (C4)
(src/plugins/fresco-pd/fu-fresco-pd-device.c, lines 129-138 and 332-343)

The USB traffic is modelled as a trace of read/write operations against
the device's MMIO space, with the device memory given as a function from
offset to byte value.  Transfer failures are orthogonal to the claim and
the success path is modelled. -/

/-- One transfer of the Fresco PD protocol. -/
inductive FrescoOp where
  | read (offset : Nat)
  | write (offset : Nat) (val : Nat)
  deriving DecidableEq

/-- Translation of fu_fresco_pd_device_set_byte: read the byte at the
offset; if it already equals the requested value return TRUE without
writing, otherwise write the value.  The result is the operation trace. -/
def fu_fresco_pd_device_set_byte (mem : Nat → Nat) (offset val : Nat) : List FrescoOp :=
  if mem offset = val then
    [FrescoOp.read offset]
  else
    [FrescoOp.read offset, FrescoOp.write offset val]

/-- Device memory after fu_fresco_pd_device_set_byte: the offset holds
the requested value (either it already did, or it was written). -/
def fresco_mem_after_set_byte (mem : Nat → Nat) (offset val : Nat) : Nat → Nat :=
  fun o => if o = offset then val else mem o

/-- The body-fill loop of fu_fresco_pd_device_write_firmware, iterated
from byte_index = start for n steps: set_byte(byte_index + 0x2000,
buf[byte_index]) at each step, threading the device memory. -/
def fresco_body_fill_go (buf : Nat → Nat) (mem : Nat → Nat) (start : Nat) : Nat → List FrescoOp
  | 0 => []
  | n + 1 =>
    fu_fresco_pd_device_set_byte mem (start + 0x2000) (buf start) ++
      fresco_body_fill_go buf (fresco_mem_after_set_byte mem (start + 0x2000) (buf start))
        (start + 1) n

/-- The full body-fill loop: byte_index from 0 to 0x3fff, copying buf
offsets 0..0x3fff to mmio addresses 0x2000..0x5fff. -/
def fresco_body_fill_trace (buf : Nat → Nat) (mem : Nat → Nat) : List FrescoOp :=
  fresco_body_fill_go buf mem 0 0x4000

lemma fresco_body_fill_go_mem (buf : Nat → Nat) :
    ∀ (n start j : Nat) (mem : Nat → Nat), start ≤ j → j < start + n →
      (FrescoOp.read (j + 0x2000) ∈ fresco_body_fill_go buf mem start n) ∧
      (FrescoOp.write (j + 0x2000) (buf j) ∈ fresco_body_fill_go buf mem start n ↔
        mem (j + 0x2000) ≠ buf j) := by
  intro n
  induction n with
  | zero => intro start j mem h1 h2; omega
  | succ n ih =>
    intro start j mem h1 h2
    by_cases hj : j = start
    · subst hj
      rw [fresco_body_fill_go]
      constructor
      · rw [fu_fresco_pd_device_set_byte]
        by_cases hm : mem (j + 0x2000) = buf j <;> simp [hm]
      · constructor
        · intro hmem
          simp only [List.mem_append] at hmem
          rcases hmem with hl | hr
          · rw [fu_fresco_pd_device_set_byte] at hl
            by_cases hm : mem (j + 0x2000) = buf j
            · simp [hm] at hl
            · exact hm
          · -- a write to offset j + 0x2000 cannot occur in the tail,
            -- whose reads/writes target offsets strictly above j
            exfalso
            have : ∀ (m : Nat) (st : Nat) (memx : Nat → Nat), j < st →
                FrescoOp.write (j + 0x2000) (buf j) ∉ fresco_body_fill_go buf memx st m := by
              intro m
              induction m with
              | zero => intro st memx hst; simp [fresco_body_fill_go]
              | succ m ihm =>
                intro st memx hst
                rw [fresco_body_fill_go]
                simp only [List.mem_append, not_or]
                constructor
                · rw [fu_fresco_pd_device_set_byte]
                  by_cases hm : memx (st + 0x2000) = buf st
                  · simp [hm]
                  · simp [hm]
                    omega
                · exact ihm (st + 1) _ (by omega)
            exact this n (j + 1) _ (by omega) hr
        · intro hne
          rw [fu_fresco_pd_device_set_byte]
          by_cases hm : mem (j + 0x2000) = buf j
          · exact absurd hm hne
          · simp [hm]
    · have hlt : start < j := by omega
      have htail := ih (start + 1) j
        (fresco_mem_after_set_byte mem (start + 0x2000) (buf start)) (by omega) (by omega)
      have hmemeq : fresco_mem_after_set_byte mem (start + 0x2000) (buf start) (j + 0x2000) =
          mem (j + 0x2000) := by
        rw [fresco_mem_after_set_byte]
        have : j + 0x2000 ≠ start + 0x2000 := by omega
        simp [this]
      rw [fresco_body_fill_go]
      constructor
      · simp only [List.mem_append]
        exact Or.inr htail.1
      · rw [hmemeq] at htail
        constructor
        · intro hmem
          simp only [List.mem_append] at hmem
          rcases hmem with hl | hr
          · exfalso
            rw [fu_fresco_pd_device_set_byte] at hl
            by_cases hm : mem (start + 0x2000) = buf start
            · simp [hm] at hl
            · simp [hm] at hl
              omega
          · exact htail.2.mp hr
        · intro hne
          simp only [List.mem_append]
          exact Or.inr (htail.2.mpr hne)

/-- C4 counterexample: with the on-device byte at mmio offset 0x2000
already equal to payload byte 0 (both 0x00), the body-fill loop performs
no write at that offset, so not every payload byte is written. -/
theorem C4_counterexample :
    FrescoOp.write 0x2000 ((fun _ => 0 : Nat → Nat) 0) ∉
      fresco_body_fill_trace (fun _ => 0) (fun _ => 0) := by
  intro hmem
  have h := (fresco_body_fill_go_mem (fun _ => 0) 0x4000 0 0 (fun _ => 0)
    (Nat.le_refl 0) (by omega)).2
  rw [fresco_body_fill_trace] at hmem
  have : (fun _ => 0 : Nat → Nat) (0 + 0x2000) ≠ (fun _ => 0 : Nat → Nat) 0 := by
    exact h.mp (by simpa using hmem)
  exact this rfl

/-! ## fu_rts54hub_rtd21xx_foreground_detach (C7)
(src/plugins/rts54hub/fu-rts54hub-rtd21xx-foreground.c, lines 89-125)

The I2C traffic of one attempt (the detach command write and the status
read) is hardware-dependent and supplied as an oracle per attempt.
fu_device_retry lives in libfwupdplugin outside src/. -/

/-- Modelled from the spec: the idle-success status byte of the RTD21xx
ISP protocol, defined in the rts54hub device header outside src/. -/
def ISP_STATUS_IDLE_SUCCESS : Nat := 0x11

/-- The hardware outcome of one detach attempt: the result of the raw
detach command write and the result of the status-byte read. -/
structure Rtd21xxAttempt where
  detach_raw : Except GErrorM Unit
  read_status_raw : Except GErrorM Nat

/-- Translation of fu_rts54hub_rtd21xx_foreground_detach_cb: issue the
detach command, read the status byte, and fail with an Internal error
when the status is not idle-success.  (The C code renders the status in
the message with %02x; the model renders it in decimal, which does not
matter to any statement below.) -/
def fu_rts54hub_rtd21xx_foreground_detach_cb (a : Rtd21xxAttempt) : Except GErrorM Unit :=
  match a.detach_raw with
  | Except.error e => Except.error e
  | Except.ok _ =>
    match a.read_status_raw with
    | Except.error e => Except.error e
    | Except.ok status =>
      if status ≠ ISP_STATUS_IDLE_SUCCESS then
        Except.error ⟨FwupdErrorKind.internal, "detach status was " ++ toString status⟩
      else
        Except.ok ()

/-- Modelled from the spec: the bounded-retry helper fu_device_retry
(local retry for read-status style polling loops with a plugin-exposed
retry count): run the callback for attempt i, return success
immediately, and give up with the last error once count attempts have
failed. -/
def fu_device_retry_go (f : Nat → Except GErrorM Unit) (i : Nat) : Nat → Except GErrorM Unit
  | 0 => Except.error ⟨FwupdErrorKind.internal, "no retries"⟩
  | n + 1 =>
    match f i with
    | Except.ok _ => Except.ok ()
    | Except.error e => if n = 0 then Except.error e else fu_device_retry_go f (i + 1) n

/-- Modelled from the spec: fu_device_retry with a retry count, starting
at attempt 0. -/
def fu_device_retry (f : Nat → Except GErrorM Unit) (count : Nat) : Except GErrorM Unit :=
  fu_device_retry_go f 0 count

/-- Translation of fu_rts54hub_rtd21xx_foreground_detach: open the
parent device, then retry the detach callback 100 times. -/
def fu_rts54hub_rtd21xx_foreground_detach (lockerResult : Except GErrorM Unit)
    (attempts : Nat → Rtd21xxAttempt) : Except GErrorM Unit :=
  match lockerResult with
  | Except.error e => Except.error e
  | Except.ok _ =>
    fu_device_retry (fun i => fu_rts54hub_rtd21xx_foreground_detach_cb (attempts i)) 100

lemma fu_device_retry_go_ok (f : Nat → Except GErrorM Unit) :
    ∀ (n i : Nat), (fu_device_retry_go f i n = Except.ok () ↔
      ∃ k, i ≤ k ∧ k < i + n ∧ f k = Except.ok ()) := by
  intro n
  induction n with
  | zero =>
    intro i
    constructor
    · intro h; exact absurd h (by simp [fu_device_retry_go])
    · rintro ⟨k, h1, h2, _⟩; omega
  | succ n ih =>
    intro i
    cases hfi : f i with
    | ok u =>
      have hred : fu_device_retry_go f i (n + 1) = Except.ok () := by
        rw [fu_device_retry_go, hfi]
      rw [hred]
      constructor
      · intro _; exact ⟨i, Nat.le_refl i, by omega, by cases u; exact hfi⟩
      · intro _; rfl
    | error e =>
      have hred : fu_device_retry_go f i (n + 1) =
          if n = 0 then Except.error e else fu_device_retry_go f (i + 1) n := by
        rw [fu_device_retry_go, hfi]
      rw [hred]
      by_cases hn : n = 0
      · subst hn
        rw [if_pos rfl]
        constructor
        · intro h; exact absurd h (by simp)
        · rintro ⟨k, h1, h2, hk⟩
          have hki : k = i := by omega
          subst hki
          rw [hfi] at hk
          exact absurd hk (by simp)
      · rw [if_neg hn, ih (i + 1)]
        constructor
        · rintro ⟨k, h1, h2, hk⟩
          exact ⟨k, by omega, by omega, hk⟩
        · rintro ⟨k, h1, h2, hk⟩
          refine ⟨k, ?_, by omega, hk⟩
          rcases Nat.eq_or_lt_of_le h1 with h | h
          · subst h; rw [hfi] at hk; exact absurd hk (by simp)
          · omega

/-- C7: with the parent device opened, detach is a bounded polling loop:
it succeeds iff some attempt among the first 100 succeeds, it fails only
when all 100 attempts have failed, and an attempt whose raw command and
status read succeed but whose status byte is not idle-success fails with
an Internal error. -/
theorem C7_foreground_detach_retry (lockerResult : Except GErrorM Unit)
    (attempts : Nat → Rtd21xxAttempt) (hlock : lockerResult = Except.ok ()) :
    (fu_rts54hub_rtd21xx_foreground_detach lockerResult attempts = Except.ok () ↔
      ∃ k, k < 100 ∧
        fu_rts54hub_rtd21xx_foreground_detach_cb (attempts k) = Except.ok ()) ∧
    ((∃ e, fu_rts54hub_rtd21xx_foreground_detach lockerResult attempts = Except.error e) ↔
      ∀ k, k < 100 →
        ∃ e, fu_rts54hub_rtd21xx_foreground_detach_cb (attempts k) = Except.error e) ∧
    (∀ k status, (attempts k).detach_raw = Except.ok () →
      (attempts k).read_status_raw = Except.ok status →
      status ≠ ISP_STATUS_IDLE_SUCCESS →
      fu_rts54hub_rtd21xx_foreground_detach_cb (attempts k) =
        Except.error ⟨FwupdErrorKind.internal, "detach status was " ++ toString status⟩) := by
  subst hlock
  have hok := fu_device_retry_go_ok
    (fun i => fu_rts54hub_rtd21xx_foreground_detach_cb (attempts i)) 100 0
  have hexc : ∀ r : Except GErrorM Unit, (∃ e, r = Except.error e) ↔ ¬ r = Except.ok () := by
    intro r
    cases r with
    | ok u => cases u; simp
    | error e => simp
  refine ⟨?_, ?_, ?_⟩
  · rw [fu_rts54hub_rtd21xx_foreground_detach]
    rw [fu_device_retry, hok]
    constructor
    · rintro ⟨k, _, h2, h3⟩; exact ⟨k, by omega, h3⟩
    · rintro ⟨k, h1, h2⟩; exact ⟨k, by omega, by omega, h2⟩
  · rw [fu_rts54hub_rtd21xx_foreground_detach]
    rw [hexc, fu_device_retry, hok]
    constructor
    · intro hall k hk
      rw [hexc]
      intro hkok
      exact hall ⟨k, by omega, by omega, hkok⟩
    · rintro hall ⟨k, h1, h2, h3⟩
      have := (hexc _).mp (hall k (by omega))
      exact this h3
  · intro k status h1 h2 h3
    rw [fu_rts54hub_rtd21xx_foreground_detach_cb, h1, h2]
    simp [h3]

/-- Witness for C7: the first attempt reads a busy status byte 0xBF, the
second reads idle-success; detach succeeds. -/
theorem C7_foreground_detach_retry_witness :
    fu_rts54hub_rtd21xx_foreground_detach (Except.ok ())
      (fun i => if i = 0 then ⟨Except.ok (), Except.ok 0xBF⟩
                else ⟨Except.ok (), Except.ok 0x11⟩) = Except.ok () :=
  (C7_foreground_detach_retry (Except.ok ())
      (fun i => if i = 0 then ⟨Except.ok (), Except.ok 0xBF⟩
                else ⟨Except.ok (), Except.ok 0x11⟩) rfl).1.mpr
    ⟨1, by omega, rfl⟩

/-! ## fu_util_lock and fu_util_start_engine (C8)
(src/src/fu-tool.c, lines 148-207 and 220-230)

The filesystem interactions are oracles: the result of creating the lock
directory, whether the lock file could be opened, and whether the fcntl
write lock was acquired (it is not acquired exactly when another
instance holds it). -/

/-- Filesystem environment for fu_util_lock. -/
structure FuUtilLockEnv where
  mkdirResult : Except GErrorM Unit
  openOk : Bool
  lockAcquired : Bool
  lockfn : String

/-- Translation of fu_util_lock (HAVE_WRLCK build): create the lock
directory, open the lock file (failure: NotSupported), take the fcntl
write lock (failure, i.e. another instance holds the lock: NotSupported
with the message naming the lock file). -/
def fu_util_lock (env : FuUtilLockEnv) : Except GErrorM Unit :=
  match env.mkdirResult with
  | Except.error e => Except.error e
  | Except.ok _ =>
    if ¬ env.openOk then
      Except.error ⟨FwupdErrorKind.notSupported, "failed to open " ++ env.lockfn⟩
    else if ¬ env.lockAcquired then
      Except.error ⟨FwupdErrorKind.notSupported,
        "another instance has locked " ++ env.lockfn⟩
    else
      Except.ok ()

/-- Translation of fu_util_start_engine: if the engine is already loaded
return TRUE; otherwise take the process lock, prefixing a lock failure
with the context phrase and returning without loading the engine; on
success (after the best-effort daemon stop, which cannot fail the call)
load the engine.  The Bool of the result records whether fu_engine_load
was reached. -/
def fu_util_start_engine (engineLoaded : Bool) (env : FuUtilLockEnv)
    (engineLoadResult : Except GErrorM Unit) : Bool × Except GErrorM Unit :=
  if engineLoaded then
    (false, Except.ok ())
  else
    match fu_util_lock env with
    | Except.error e =>
      (false, Except.error { e with message := "Failed to lock: " ++ e.message })
    | Except.ok _ => (true, engineLoadResult)

/-- C8 counterexample: with another instance holding the lock, start-up
fails with kind NotSupported -- not AnotherInstanceRunning as claimed. -/
theorem C8_counterexample :
    (fu_util_start_engine false ⟨Except.ok (), true, false, "/run/lock/fwupdtool"⟩
        (Except.ok ())).2 =
      Except.error ⟨FwupdErrorKind.notSupported,
        "Failed to lock: another instance has locked /run/lock/fwupdtool"⟩ ∧
    FwupdErrorKind.notSupported ≠ FwupdErrorKind.anotherInstanceRunning := by
  exact ⟨rfl, by decide⟩

/-- C8 (amended): when a second instance starts while another holds the
lock, fu_util_lock fails to acquire the write lock and
fu_util_start_engine propagates that failure -- kind NotSupported,
message naming the lock file, prefixed with the context phrase -- and
the engine is not loaded. -/
theorem C8_second_instance_lock (env : FuUtilLockEnv)
    (engineLoadResult : Except GErrorM Unit)
    (hmkdir : env.mkdirResult = Except.ok ()) (hopen : env.openOk = true)
    (hlock : env.lockAcquired = false) :
    (fu_util_start_engine false env engineLoadResult).2 =
      Except.error ⟨FwupdErrorKind.notSupported,
        "Failed to lock: another instance has locked " ++ env.lockfn⟩ ∧
    (fu_util_start_engine false env engineLoadResult).1 = false := by
  have hl : fu_util_lock env =
      Except.error ⟨FwupdErrorKind.notSupported,
        "another instance has locked " ++ env.lockfn⟩ := by
    rw [fu_util_lock, hmkdir]
    simp [hopen, hlock]
  simp only [fu_util_start_engine, hl, Bool.false_eq_true, if_false]
  refine ⟨?_, trivial⟩
  have hs : "Failed to lock: " ++ "another instance has locked " =
      "Failed to lock: another instance has locked " := rfl
  rw [← String.append_assoc, hs]

/-- Witness for C8's amended theorem at a concrete environment. -/
theorem C8_second_instance_lock_witness :
    (fu_util_start_engine false ⟨Except.ok (), true, false, "/var/lock/fwupdtool"⟩
        (Except.ok ())).1 = false :=
  (C8_second_instance_lock ⟨Except.ok (), true, false, "/var/lock/fwupdtool"⟩
      (Except.ok ()) rfl rfl rfl).2

/-! ## fu_logitech_hidpp_bootloader_parse_requests (C10)
(src/plugins/logitech-hidpp/fu-logitech-hidpp-bootloader.c, lines 48-185)

A firmware line is a list of ASCII character codes (the NUL terminator
is the end of the list; the C loop walks the NUL-separated lines that
g_strsplit_set produced, so the list of lines is the model's input).
The two string-parsing helpers are declared in headers but implemented
outside src/ and are modelled below. -/

/-- Is the ASCII code a hexadecimal digit. -/
def isHexDigit (c : Nat) : Bool :=
  (48 ≤ c ∧ c ≤ 57) ∨ (97 ≤ c ∧ c ≤ 102) ∨ (65 ≤ c ∧ c ≤ 70)

/-- Value of an ASCII hexadecimal digit. -/
def hexDigitVal (c : Nat) : Nat :=
  if 48 ≤ c ∧ c ≤ 57 then c - 48
  else if 97 ≤ c ∧ c ≤ 102 then c - 87
  else if 65 ≤ c ∧ c ≤ 70 then c - 55
  else 0

/-- Modelled from the spec: fu_logitech_hidpp_buffer_read_uint8
(declared in fu-logitech-hidpp-common.h, implemented outside src/)
copies up to two characters at the offset and parses them as a base-16
unsigned value, returning 0 when they do not form one (this includes
running into the end of the line after zero characters). -/
def fu_logitech_hidpp_buffer_read_uint8 (line : List Nat) (off : Nat) : Nat :=
  let chars := (line.drop off).take 2
  if chars ≠ [] ∧ chars.all isHexDigit then
    chars.foldl (fun a c => 16 * a + hexDigitVal c) 0
  else
    0

/-- Modelled from the spec: fu_firmware_strparse_uint16_safe
(libfwupdplugin, outside src/) checks that four characters fit inside
the buffer and parses them as a base-16 value, failing closed on a
bounds overrun or a non-hexadecimal character. -/
def fu_firmware_strparse_uint16_safe (line : List Nat) (off : Nat) : Except GErrorM Nat :=
  if line.length < off + 4 then
    Except.error ⟨FwupdErrorKind.invalidData, "buffer too small"⟩
  else
    let chars := (line.drop off).take 4
    if chars.all isHexDigit then
      Except.ok (chars.foldl (fun a c => 16 * a + hexDigitVal c) 0)
    else
      Except.error ⟨FwupdErrorKind.invalidData, "not a hexadecimal value"⟩

/-- The bootloader request commands produced by the parser. -/
inductive HidppBootloaderCmd where
  | writeRamBuffer
  | writeSignature
  deriving DecidableEq

/-- FuLogitechHidppBootloaderRequest, restricted to the fields the
parser fills in. -/
structure HidppBootloaderRequest where
  cmd : HidppBootloaderCmd
  addr : Nat
  len : Nat
  data : List Nat
  deriving DecidableEq

/-- The data-read loop of the parser: payload->len bytes at character
positions 9, 11, 13, ...; hitting the end of the line (the C code tests
the character for NUL) fails with InvalidData. -/
def hidpp_read_data_go (line : List Nat) (pos : Nat) : Nat → Except GErrorM (List Nat)
  | 0 => Except.ok []
  | j + 1 =>
    if line.length ≤ pos then
      Except.error ⟨FwupdErrorKind.invalidData, "firmware data invalid: expected bytes"⟩
    else
      match hidpp_read_data_go line (pos + 2) j with
      | Except.error e => Except.error e
      | Except.ok rest =>
        Except.ok (fu_logitech_hidpp_buffer_read_uint8 line pos :: rest)

/-- The data bytes of one record, starting at character position 0x09. -/
def hidpp_read_data (line : List Nat) (len : Nat) : Except GErrorM (List Nat) :=
  hidpp_read_data_go line 9 len

/-- Outcome of processing one line of the firmware: skip it, stop at the
EOF record, fail the whole parse, or append a request (carrying the
updated last_addr). -/
inductive HidppParseStep where
  | skip
  | stop
  | fail (e : GErrorM)
  | push (r : HidppBootloaderRequest) (newLast : Nat)

/-- One iteration of the parser loop of
fu_logitech_hidpp_bootloader_parse_requests: skip short lines, reject a
record length over 28, parse the address, dispatch on the record type
(data, EOF, segment/linear start addresses, extended linear address,
vendor signature), read the data bytes, keep signature records
unconditionally, and keep data records only when the address lies in
the flash window and does not decrease. -/
def fu_logitech_hidpp_parse_line (flash_addr_lo flash_addr_hi last_addr : Nat)
    (line : List Nat) : HidppParseStep :=
  if line.length < 5 then HidppParseStep.skip
  else
    let len := fu_logitech_hidpp_buffer_read_uint8 line 1
    if 28 < len then
      HidppParseStep.fail ⟨FwupdErrorKind.invalidData, "firmware data invalid: too large"⟩
    else
      match fu_firmware_strparse_uint16_safe line 3 with
      | Except.error e => HidppParseStep.fail e
      | Except.ok addr =>
        let recType := fu_logitech_hidpp_buffer_read_uint8 line 7
        if recType = 3 then HidppParseStep.skip
        else if recType = 5 then HidppParseStep.skip
        else if recType = 4 then
          match fu_firmware_strparse_uint16_safe line 9 with
          | Except.error e => HidppParseStep.fail e
          | Except.ok off =>
            if off ≠ 0 then
              HidppParseStep.fail ⟨FwupdErrorKind.invalidData,
                "extended linear addresses with offset different from 0 are not supported"⟩
            else HidppParseStep.skip
        else if recType = 0 ∨ recType = 1 ∨ recType = 0xFD then
          if recType = 1 then HidppParseStep.stop
          else
            match hidpp_read_data line len with
            | Except.error e => HidppParseStep.fail e
            | Except.ok dat =>
              if recType = 0xFD then
                HidppParseStep.push ⟨HidppBootloaderCmd.writeSignature, addr, len, dat⟩ last_addr
              else if flash_addr_hi < addr then HidppParseStep.skip
              else if addr < flash_addr_lo then HidppParseStep.skip
              else if addr < last_addr then HidppParseStep.skip
              else HidppParseStep.push ⟨HidppBootloaderCmd.writeRamBuffer, addr, len, dat⟩ addr
        else
          HidppParseStep.fail ⟨FwupdErrorKind.invalidData,
            "intel hex file record type not supported"⟩

/-- The parser loop over the lines, threading last_addr and the request
array. -/
def fu_logitech_hidpp_parse_go (flash_addr_lo flash_addr_hi : Nat) :
    List (List Nat) → Nat → List HidppBootloaderRequest →
      Except GErrorM (List HidppBootloaderRequest)
  | [], _, reqs => Except.ok reqs
  | line :: rest, last_addr, reqs =>
    match fu_logitech_hidpp_parse_line flash_addr_lo flash_addr_hi last_addr line with
    | HidppParseStep.skip => fu_logitech_hidpp_parse_go flash_addr_lo flash_addr_hi rest last_addr reqs
    | HidppParseStep.stop => Except.ok reqs
    | HidppParseStep.fail e => Except.error e
    | HidppParseStep.push r newLast =>
      fu_logitech_hidpp_parse_go flash_addr_lo flash_addr_hi rest newLast (reqs ++ [r])

/-- Translation of fu_logitech_hidpp_bootloader_parse_requests: run the
loop from last_addr = 0 with an empty array and fail with InvalidData
when no payloads were collected. -/
def fu_logitech_hidpp_bootloader_parse_requests (flash_addr_lo flash_addr_hi : Nat)
    (lines : List (List Nat)) : Except GErrorM (List HidppBootloaderRequest) :=
  match fu_logitech_hidpp_parse_go flash_addr_lo flash_addr_hi lines 0 [] with
  | Except.error e => Except.error e
  | Except.ok reqs =>
    if reqs = [] then
      Except.error ⟨FwupdErrorKind.invalidData, "firmware data invalid: no payloads found"⟩
    else
      Except.ok reqs

/-- The addresses of the non-signature (write-ram-buffer) requests, in
order. -/
def hidpp_ram_addrs (reqs : List HidppBootloaderRequest) : List Nat :=
  (reqs.filter (fun r => r.cmd = HidppBootloaderCmd.writeRamBuffer)).map
    (fun r => r.addr)

lemma hidpp_read_data_go_length (line : List Nat) :
    ∀ (n pos : Nat) (dat : List Nat),
      hidpp_read_data_go line pos n = Except.ok dat → dat.length = n := by
  intro n
  induction n with
  | zero =>
    intro pos dat h
    rw [hidpp_read_data_go] at h
    cases h
    rfl
  | succ n ih =>
    intro pos dat h
    rw [hidpp_read_data_go] at h
    by_cases hp : line.length ≤ pos
    · rw [if_pos hp] at h; cases h
    · rw [if_neg hp] at h
      cases hrec : hidpp_read_data_go line (pos + 2) n with
      | error e => rw [hrec] at h; cases h
      | ok rest =>
        rw [hrec] at h
        cases h
        simp [ih (pos + 2) rest hrec]

lemma hidpp_read_data_length (line : List Nat) (len : Nat) (dat : List Nat)
    (h : hidpp_read_data line len = Except.ok dat) : dat.length = len :=
  hidpp_read_data_go_length line len 9 dat (by rwa [hidpp_read_data] at h)

set_option maxHeartbeats 1000000 in
lemma fu_logitech_hidpp_parse_line_push (lo hi la : Nat) (line : List Nat)
    (r : HidppBootloaderRequest) (newLa : Nat)
    (h : fu_logitech_hidpp_parse_line lo hi la line = HidppParseStep.push r newLa) :
    r.len ≤ 28 ∧ r.data.length = r.len ∧
      ((r.cmd = HidppBootloaderCmd.writeSignature ∧ newLa = la) ∨
       (r.cmd = HidppBootloaderCmd.writeRamBuffer ∧
         lo ≤ r.addr ∧ r.addr ≤ hi ∧ la ≤ r.addr ∧ newLa = r.addr)) := by
  rw [fu_logitech_hidpp_parse_line] at h
  dsimp only [] at h
  split at h
  · cases h
  · split at h
    · cases h
    · split at h
      · cases h
      · split at h
        · cases h
        · split at h
          · cases h
          · split at h
            · split at h
              · cases h
              · split at h
                · cases h
                · cases h
            · split at h
              · split at h
                · cases h
                · split at h
                  · cases h
                  · rename_i dat hdat
                    split at h
                    · -- signature record: kept unconditionally, last_addr unchanged
                      cases h
                      refine ⟨?_, ?_, Or.inl ⟨rfl, rfl⟩⟩
                      · dsimp only []
                        omega
                      · dsimp only []
                        exact hidpp_read_data_length line _ dat hdat
                    · split at h
                      · cases h
                      · split at h
                        · cases h
                        · split at h
                          · cases h
                          · -- data record: inside the window, address non-decreasing
                            cases h
                            refine ⟨?_, ?_, Or.inr ⟨rfl, ?_, ?_, ?_, rfl⟩⟩
                            · dsimp only []
                              omega
                            · dsimp only []
                              exact hidpp_read_data_length line _ dat hdat
                            · dsimp only []
                              omega
                            · dsimp only []
                              omega
                            · dsimp only []
                              omega
              · cases h

lemma hidpp_ram_addrs_append_sig (reqs : List HidppBootloaderRequest)
    (r : HidppBootloaderRequest) (hr : r.cmd = HidppBootloaderCmd.writeSignature) :
    hidpp_ram_addrs (reqs ++ [r]) = hidpp_ram_addrs reqs := by
  rw [hidpp_ram_addrs, hidpp_ram_addrs, List.filter_append]
  have hf : List.filter (fun x => decide (x.cmd = HidppBootloaderCmd.writeRamBuffer)) [r] = [] := by
    simp [List.filter, hr]
  rw [hf, List.append_nil]

lemma hidpp_ram_addrs_append_ram (reqs : List HidppBootloaderRequest)
    (r : HidppBootloaderRequest) (hr : r.cmd = HidppBootloaderCmd.writeRamBuffer) :
    hidpp_ram_addrs (reqs ++ [r]) = hidpp_ram_addrs reqs ++ [r.addr] := by
  rw [hidpp_ram_addrs, hidpp_ram_addrs, List.filter_append]
  have hf : List.filter (fun x => decide (x.cmd = HidppBootloaderCmd.writeRamBuffer)) [r] = [r] := by
    simp [List.filter, hr]
  rw [hf, List.map_append]
  simp

lemma fu_logitech_hidpp_parse_go_invariant (lo hi : Nat) :
    ∀ (lines : List (List Nat)) (la : Nat) (reqs out : List HidppBootloaderRequest),
      fu_logitech_hidpp_parse_go lo hi lines la reqs = Except.ok out →
      (∀ r ∈ reqs, r.len ≤ 28 ∧ r.data.length = r.len) →
      (∀ a ∈ hidpp_ram_addrs reqs, lo ≤ a ∧ a ≤ hi ∧ a ≤ la) →
      (hidpp_ram_addrs reqs).Sorted (· ≤ ·) →
      ((∀ r ∈ out, r.len ≤ 28 ∧ r.data.length = r.len) ∧
       (∀ a ∈ hidpp_ram_addrs out, lo ≤ a ∧ a ≤ hi) ∧
       (hidpp_ram_addrs out).Sorted (· ≤ ·)) := by
  intro lines
  induction lines with
  | nil =>
    intro la reqs out h hinv1 hinv2 hinv3
    rw [fu_logitech_hidpp_parse_go] at h
    cases h
    exact ⟨hinv1, fun a ha => ⟨(hinv2 a ha).1, (hinv2 a ha).2.1⟩, hinv3⟩
  | cons line rest ih =>
    intro la reqs out h hinv1 hinv2 hinv3
    rw [fu_logitech_hidpp_parse_go] at h
    cases hstep : fu_logitech_hidpp_parse_line lo hi la line with
    | skip =>
      simp only [hstep] at h
      exact ih la reqs out h hinv1 hinv2 hinv3
    | stop =>
      simp only [hstep] at h
      cases h
      exact ⟨hinv1, fun a ha => ⟨(hinv2 a ha).1, (hinv2 a ha).2.1⟩, hinv3⟩
    | fail e =>
      simp only [hstep] at h
      cases h
    | push r newLa =>
      simp only [hstep] at h
      have hp := fu_logitech_hidpp_parse_line_push lo hi la line r newLa hstep
      have hinv1a : ∀ x ∈ reqs ++ [r], x.len ≤ 28 ∧ x.data.length = x.len := by
        intro x hx
        rcases List.mem_append.mp hx with hx1 | hx2
        · exact hinv1 x hx1
        · have hxr : x = r := by simpa using hx2
          subst hxr
          exact ⟨hp.1, hp.2.1⟩
      rcases hp.2.2 with ⟨hsig, hla⟩ | ⟨hram, hlo, hhi, hge, hnew⟩
      · rw [hla] at h
        have heq := hidpp_ram_addrs_append_sig reqs r hsig
        refine ih la (reqs ++ [r]) out h hinv1a ?_ ?_
        · rw [heq]; exact hinv2
        · rw [heq]; exact hinv3
      · rw [hnew] at h
        have heq := hidpp_ram_addrs_append_ram reqs r hram
        refine ih r.addr (reqs ++ [r]) out h hinv1a ?_ ?_
        · rw [heq]
          intro a ha
          rcases List.mem_append.mp ha with ha1 | ha2
          · exact ⟨(hinv2 a ha1).1, (hinv2 a ha1).2.1, by have := (hinv2 a ha1).2.2; omega⟩
          · have har : a = r.addr := by simpa using ha2
            subst har
            exact ⟨hlo, hhi, Nat.le_refl _⟩
        · rw [heq]
          show List.Pairwise (· ≤ ·) (hidpp_ram_addrs reqs ++ [r.addr])
          refine List.pairwise_append.mpr ⟨hinv3, by simp, ?_⟩
          intro x hx y hy
          have hyr : y = r.addr := by simpa using hy
          subst hyr
          have := (hinv2 x hx).2.2
          omega

/-- C10: whenever parse_requests succeeds, the request list is non-empty
(the empty case is an InvalidData error instead), every request carries
at most 28 data bytes, and the write-ram-buffer requests appear with
non-decreasing addresses, each inside the flash window
[flash_addr_lo, flash_addr_hi] (out-of-window and decreasing records
having been silently skipped). -/
theorem C10_parse_requests_invariants (flash_addr_lo flash_addr_hi : Nat)
    (lines : List (List Nat)) (out : List HidppBootloaderRequest)
    (h : fu_logitech_hidpp_bootloader_parse_requests flash_addr_lo flash_addr_hi lines =
      Except.ok out) :
    out ≠ [] ∧
    (∀ r ∈ out, r.len ≤ 28 ∧ r.data.length ≤ 28) ∧
    (∀ a ∈ hidpp_ram_addrs out, flash_addr_lo ≤ a ∧ a ≤ flash_addr_hi) ∧
    (hidpp_ram_addrs out).Sorted (· ≤ ·) := by
  rw [fu_logitech_hidpp_bootloader_parse_requests] at h
  cases hgo : fu_logitech_hidpp_parse_go flash_addr_lo flash_addr_hi lines 0 [] with
  | error e =>
    simp only [hgo] at h
    cases h
  | ok reqs =>
    simp only [hgo] at h
    by_cases hne : reqs = []
    · rw [if_pos hne] at h
      cases h
    · rw [if_neg hne] at h
      cases h
      have hinv := fu_logitech_hidpp_parse_go_invariant flash_addr_lo flash_addr_hi
        lines 0 [] out hgo (by intro r hr; cases hr) (by intro a ha; cases ha)
        (by rw [hidpp_ram_addrs]; exact List.sorted_nil)
      refine ⟨hne, ?_, hinv.2.1, hinv.2.2⟩
      intro r hr
      have hl := hinv.1 r hr
      exact ⟨hl.1, by omega⟩

/-- Witness for C10: one data record at address 0x0100 with one data
byte 0xAB, inside the window [0, 0xFFFF]; the parse succeeds and the
theorem's conclusions hold for the resulting singleton list. -/
theorem C10_parse_requests_invariants_witness :
    ([⟨HidppBootloaderCmd.writeRamBuffer, 0x0100, 1, [0xAB]⟩] :
        List HidppBootloaderRequest) ≠ [] ∧
      (hidpp_ram_addrs [⟨HidppBootloaderCmd.writeRamBuffer, 0x0100, 1, [0xAB]⟩]).Sorted
        (· ≤ ·) := by
  have h := C10_parse_requests_invariants 0 0xFFFF
    [[58, 48, 49, 48, 49, 48, 48, 48, 48, 65, 66]]
    [⟨HidppBootloaderCmd.writeRamBuffer, 0x0100, 1, [0xAB]⟩] rfl
  exact ⟨h.1, h.2.2.2⟩

/-! ## fu_util_switch_branch (C5)
(src/src/fu-util.c, lines 3567-3698, with its selection helpers
fu_util_prompt_for_device, fu_util_get_device_by_id and
fu_util_get_device_or_prompt from the same file)

The daemon IPC (fwupd_client_get_devices, get_devices_by_guid,
get_device_by_id, get_releases) and the console are oracles; libfwupd
flag matching is modelled from the spec. -/

/-- Install flags the client sets before installing. -/
inductive FwupdInstallFlag where
  | allowReinstall
  | allowBranchSwitch
  | allowOlder
  deriving DecidableEq

/-- A release as the client sees it; flags is the abstract release flag
set matched by the release filters. -/
structure FwupdReleaseM where
  version : String
  branch : Option String
  flags : List Nat
  deriving DecidableEq

/-- The slice of the FuUtil state that switch-branch reads. -/
structure FuUtilState where
  filter_device_include : List FuDeviceFlag
  filter_device_exclude : List FuDeviceFlag
  filter_release_include : List Nat
  filter_release_exclude : List Nat
  flags : List FwupdInstallFlag
  no_device_prompt : Bool
  as_json : Bool

/-- Modelled from the spec: fwupd_device_match_flags (libfwupd) --
a device matches when it carries every include flag and none of the
exclude flags. -/
def fwupd_device_match_flags (dev : FuDeviceM)
    (incl excl : List FuDeviceFlag) : Bool :=
  incl.all (fun f => dev.flags f) && excl.all (fun f => ! dev.flags f)

/-- Modelled from the spec: fwupd_device_array_filter_flags (libfwupd)
filters by fwupd_device_match_flags and fails with NothingToDo when no
device remains. -/
def fwupd_device_array_filter_flags (devices : List FuDeviceM)
    (incl excl : List FuDeviceFlag) : Except GErrorM (List FuDeviceM) :=
  match devices.filter (fun d => fwupd_device_match_flags d incl excl) with
  | [] => Except.error ⟨FwupdErrorKind.nothingToDo, "no devices found"⟩
  | filtered => Except.ok filtered

/-- Modelled from the spec: fwupd_release_match_flags (libfwupd), same
shape as the device filter. -/
def fwupd_release_match_flags (rel : FwupdReleaseM) (incl excl : List Nat) : Bool :=
  incl.all (fun f => rel.flags.contains f) && excl.all (fun f => ! rel.flags.contains f)

/-- Modelled from the spec: fwupd_guid_is_valid (libfwupd) -- the
xxxxxxxx-xxxx-xxxx-xxxx-xxxxxxxxxxxx shape: 36 characters with dashes
at positions 8, 13, 18 and 23. -/
def fwupd_guid_is_valid (id : String) : Bool :=
  (id.toList.length == 36) && (id.toList.getD 8 'x' == '-') &&
    (id.toList.getD 13 'x' == '-') && (id.toList.getD 18 'x' == '-') &&
    (id.toList.getD 23 'x' == '-')

/-- Translation of fu_util_prompt_for_device: filter the array by the
state's device filters; return a sole survivor directly; otherwise
prompt (refusing when prompting is disabled, treating choice 0 as
cancel).  The console's returned index is an oracle; the real
fu_console_input_uint only returns an index within range, so the
out-of-range oracle value is mapped to the cancel error. -/
def fu_util_prompt_for_device (st : FuUtilState) (consoleIdx : Nat)
    (devices : List FuDeviceM) : Except GErrorM FuDeviceM :=
  match fwupd_device_array_filter_flags devices
      st.filter_device_include st.filter_device_exclude with
  | Except.error e => Except.error e
  | Except.ok filtered =>
    match filtered with
    | [d] => Except.ok d
    | _ =>
      if st.no_device_prompt then
        Except.error ⟨FwupdErrorKind.notFound, "can't prompt for devices"⟩
      else if consoleIdx = 0 then
        Except.error ⟨FwupdErrorKind.nothingToDo, "Request canceled"⟩
      else
        match filtered.get? (consoleIdx - 1) with
        | some d => Except.ok d
        | none => Except.error ⟨FwupdErrorKind.nothingToDo, "Request canceled"⟩

/-- Translation of fu_util_get_device_by_id: a valid GUID prompts among
the devices carrying it (flag filter applied); an id containing a dash
is rejected as InvalidArgs; any other id is fetched from the daemon by
exact device-id with no flag filtering (fwupd_client_get_device_by_id,
modelled from the spec: NotFound when the id is unknown). -/
def fu_util_get_device_by_id (st : FuUtilState) (consoleIdx : Nat)
    (devices : List FuDeviceM) (id : String) : Except GErrorM FuDeviceM :=
  if fwupd_guid_is_valid id then
    fu_util_prompt_for_device st consoleIdx (devices.filter (fun d => d.guids.contains id))
  else if id.toList.contains '-' then
    Except.error ⟨FwupdErrorKind.invalidArgs, "Invalid arguments"⟩
  else
    match devices.find? (fun d => d.id == id) with
    | some d => Except.ok d
    | none => Except.error ⟨FwupdErrorKind.notFound, "device not found"⟩

/-- Translation of fu_util_get_device_or_prompt: use the first
command-line value when present, otherwise prompt among all the
daemon's devices (as_json refuses to prompt). -/
def fu_util_get_device_or_prompt (st : FuUtilState) (consoleIdx : Nat)
    (devices : List FuDeviceM) (values : List String) : Except GErrorM FuDeviceM :=
  match values with
  | v :: _ => fu_util_get_device_by_id st consoleIdx devices v
  | [] =>
    if st.as_json then
      Except.error ⟨FwupdErrorKind.invalidArgs, "device ID required"⟩
    else
      fu_util_prompt_for_device st consoleIdx devices

/-- The unique-branch list switch-branch builds from the releases:
releases failing the release filter are skipped, branches already seen
are skipped, the rest appended in order. -/
def fu_util_switch_branch_branches (st : FuUtilState)
    (rels : List FwupdReleaseM) : List (Option String) :=
  rels.foldl
    (fun acc r =>
      if ¬ fwupd_release_match_flags r st.filter_release_include
          st.filter_release_exclude then acc
      else if acc.contains r.branch then acc
      else acc ++ [r.branch])
    []

/-- The destination branch: values[1] when given, the sole unique branch
when there is exactly one, otherwise the console choice (0 cancels). -/
def fu_util_switch_branch_pick (st : FuUtilState) (values : List String)
    (rels : List FwupdReleaseM) (consoleBranchIdx : Nat) :
    Except GErrorM (Option String) :=
  let branches := fu_util_switch_branch_branches st rels
  if 1 < values.length then
    Except.ok (some (values.getD 1 ""))
  else
    match branches with
    | [b] => Except.ok b
    | _ =>
      if consoleBranchIdx = 0 then
        Except.error ⟨FwupdErrorKind.nothingToDo, "Request canceled"⟩
      else
        match branches.get? (consoleBranchIdx - 1) with
        | some b => Except.ok b
        | none => Except.error ⟨FwupdErrorKind.nothingToDo, "Request canceled"⟩

/-- The state after fu_util_switch_branch has extended the device
include filter with has-multiple-branches and updatable. -/
def fu_util_switch_branch_st (st : FuUtilState) : FuUtilState :=
  { st with filter_device_include :=
    st.filter_device_include ++
      [FuDeviceFlag.hasMultipleBranches, FuDeviceFlag.updatable] }

/-- What fu_util_switch_branch did: the device it settled on, the
install call it made (release plus the install flags in force), and its
result. -/
structure SwitchBranchOutcome where
  chosenDev : Option FuDeviceM
  branchTried : Option (Option String)
  installCall : Option (FwupdReleaseM × List FwupdInstallFlag)
  result : Except GErrorM Unit

/-- Translation of fu_util_switch_branch: add has-multiple-branches and
updatable to the device include filter, resolve the device, fetch its
releases, pick the destination branch, refuse (NotSupported) when it
equals the device's current branch, find the first release on the
destination branch (NotSupported when none), show the warning prompt
(cancel refuses), set allow-reinstall and allow-branch-switch, and
install.  The daemon calls, the console, the warning prompt, the
install and the report upload are oracles; fu_util_switch_branch_warning,
fu_util_update_device_with_release and fu_util_maybe_send_reports live
outside the cited lines and are represented by their results.
The state after the filter extension lives in fu_util_switch_branch_st
just above. -/
def fu_util_switch_branch (st : FuUtilState) (values : List String)
    (devices : List FuDeviceM) (relsResult : Except GErrorM (List FwupdReleaseM))
    (consoleDevIdx consoleBranchIdx : Nat) (warningOk : Bool)
    (installResult : Except GErrorM Unit) (reportResult : Except GErrorM Unit) :
    SwitchBranchOutcome :=
  match fu_util_get_device_or_prompt (fu_util_switch_branch_st st)
      consoleDevIdx devices values with
  | Except.error e => ⟨none, none, none, Except.error e⟩
  | Except.ok dev =>
    match relsResult with
    | Except.error e => ⟨some dev, none, none, Except.error e⟩
    | Except.ok rels =>
      match fu_util_switch_branch_pick (fu_util_switch_branch_st st) values rels
          consoleBranchIdx with
      | Except.error e => ⟨some dev, none, none, Except.error e⟩
      | Except.ok branch =>
        if branch = dev.branch then
          ⟨some dev, some branch, none,
            Except.error ⟨FwupdErrorKind.notSupported,
              "Device " ++ dev.name ++ " is already on that branch"⟩⟩
        else
          match rels.find? (fun r => r.branch == branch) with
          | none =>
            ⟨some dev, some branch, none,
              Except.error ⟨FwupdErrorKind.notSupported, "No releases for that branch"⟩⟩
          | some rel =>
            if ¬ warningOk then
              ⟨some dev, some branch, none,
                Except.error ⟨FwupdErrorKind.nothingToDo, "Request canceled"⟩⟩
            else
              let fl := (fu_util_switch_branch_st st).flags ++
                [FwupdInstallFlag.allowReinstall, FwupdInstallFlag.allowBranchSwitch]
              match installResult with
              | Except.error e => ⟨some dev, some branch, some (rel, fl), Except.error e⟩
              | Except.ok _ =>
                match reportResult with
                | Except.error e => ⟨some dev, some branch, some (rel, fl), Except.error e⟩
                | Except.ok _ => ⟨some dev, some branch, some (rel, fl), Except.ok ()⟩

lemma fwupd_device_match_flags_mem (d : FuDeviceM) (incl excl : List FuDeviceFlag)
    (hm : fwupd_device_match_flags d incl excl = true) (f : FuDeviceFlag)
    (hf : f ∈ incl) : d.flags f = true := by
  rw [fwupd_device_match_flags, Bool.and_eq_true] at hm
  exact List.all_eq_true.mp hm.1 f hf

lemma fu_util_prompt_for_device_matches (st : FuUtilState) (consoleIdx : Nat)
    (devices : List FuDeviceM) (d : FuDeviceM)
    (h : fu_util_prompt_for_device st consoleIdx devices = Except.ok d) :
    fwupd_device_match_flags d st.filter_device_include st.filter_device_exclude = true := by
  rw [fu_util_prompt_for_device, fwupd_device_array_filter_flags] at h
  cases hf : devices.filter
      (fun x => fwupd_device_match_flags x st.filter_device_include st.filter_device_exclude) with
  | nil =>
    simp only [hf] at h
    cases h
  | cons x xs =>
    simp only [hf] at h
    have hmem : d ∈ x :: xs := by
      cases xs with
      | nil =>
        cases h
        exact List.mem_singleton_self _
      | cons y ys =>
        by_cases hp : st.no_device_prompt = true
        · rw [if_pos hp] at h
          cases h
        · rw [if_neg hp] at h
          by_cases hc : consoleIdx = 0
          · rw [if_pos hc] at h
            cases h
          · rw [if_neg hc] at h
            cases hg : (x :: y :: ys).get? (consoleIdx - 1) with
            | none =>
              simp only [hg] at h
              cases h
            | some d0 =>
              simp only [hg] at h
              cases h
              exact List.get?_mem hg
    have hmf : d ∈ devices.filter
        (fun x => fwupd_device_match_flags x st.filter_device_include
          st.filter_device_exclude) := by
      rw [hf]; exact hmem
    have hres := (List.mem_filter.mp hmf).2
    simpa using hres

lemma fu_util_get_device_or_prompt_filtered (st : FuUtilState) (consoleIdx : Nat)
    (devices : List FuDeviceM) (values : List String) (d : FuDeviceM)
    (h : fu_util_get_device_or_prompt st consoleIdx devices values = Except.ok d)
    (hpath : values = [] ∨ fwupd_guid_is_valid (values.headD "") = true) :
    fwupd_device_match_flags d st.filter_device_include st.filter_device_exclude = true := by
  cases values with
  | nil =>
    rw [fu_util_get_device_or_prompt] at h
    by_cases hj : st.as_json = true
    · simp [hj] at h
    · simp only [hj, Bool.false_eq_true, if_false] at h
      exact fu_util_prompt_for_device_matches st consoleIdx devices d h
  | cons v rest =>
    rcases hpath with hnil | hguid
    · cases hnil
    · rw [fu_util_get_device_or_prompt, fu_util_get_device_by_id] at h
      have hv : fwupd_guid_is_valid v = true := by simpa using hguid
      rw [if_pos hv] at h
      exact fu_util_prompt_for_device_matches st consoleIdx _ d h

lemma fu_util_switch_branch_spec (st : FuUtilState) (values : List String)
    (devices : List FuDeviceM) (relsResult : Except GErrorM (List FwupdReleaseM))
    (consoleDevIdx consoleBranchIdx : Nat) (warningOk : Bool)
    (installResult reportResult : Except GErrorM Unit) :
    (∀ d, (fu_util_switch_branch st values devices relsResult consoleDevIdx
        consoleBranchIdx warningOk installResult reportResult).chosenDev = some d →
      fu_util_get_device_or_prompt (fu_util_switch_branch_st st) consoleDevIdx
        devices values = Except.ok d) ∧
    (∀ d b, (fu_util_switch_branch st values devices relsResult consoleDevIdx
        consoleBranchIdx warningOk installResult reportResult).chosenDev = some d →
      (fu_util_switch_branch st values devices relsResult consoleDevIdx
        consoleBranchIdx warningOk installResult reportResult).branchTried = some b →
      b = d.branch →
      (fu_util_switch_branch st values devices relsResult consoleDevIdx
        consoleBranchIdx warningOk installResult reportResult).installCall = none ∧
      ∃ m, (fu_util_switch_branch st values devices relsResult consoleDevIdx
        consoleBranchIdx warningOk installResult reportResult).result =
          Except.error ⟨FwupdErrorKind.notSupported, m⟩) ∧
    (∀ rel fl, (fu_util_switch_branch st values devices relsResult consoleDevIdx
        consoleBranchIdx warningOk installResult reportResult).installCall = some (rel, fl) →
      fl = st.flags ++ [FwupdInstallFlag.allowReinstall, FwupdInstallFlag.allowBranchSwitch]) ∧
    (∀ d b rel fl, (fu_util_switch_branch st values devices relsResult consoleDevIdx
        consoleBranchIdx warningOk installResult reportResult).chosenDev = some d →
      (fu_util_switch_branch st values devices relsResult consoleDevIdx
        consoleBranchIdx warningOk installResult reportResult).branchTried = some b →
      (fu_util_switch_branch st values devices relsResult consoleDevIdx
        consoleBranchIdx warningOk installResult reportResult).installCall = some (rel, fl) →
      rel.branch = b ∧ b ≠ d.branch) := by
  have hfl : (fu_util_switch_branch_st st).flags = st.flags := rfl
  cases hdev : fu_util_get_device_or_prompt (fu_util_switch_branch_st st)
      consoleDevIdx devices values with
  | error e =>
    have hout : fu_util_switch_branch st values devices relsResult consoleDevIdx
        consoleBranchIdx warningOk installResult reportResult =
        ⟨none, none, none, Except.error e⟩ := by
      simp only [fu_util_switch_branch, hdev]
    rw [hout]
    refine ⟨?_, ?_, ?_, ?_⟩ <;> (intros; simp_all)
  | ok dev =>
    cases hrels : relsResult with
    | error e =>
      have hout : fu_util_switch_branch st values devices (Except.error e) consoleDevIdx
          consoleBranchIdx warningOk installResult reportResult =
          ⟨some dev, none, none, Except.error e⟩ := by
        simp only [fu_util_switch_branch, hdev]
      rw [hout]
      refine ⟨?_, ?_, ?_, ?_⟩
      · intro d hd
        simp only [Option.some.injEq] at hd
        rw [← hd]
      · intro d b hd hb
        simp at hb
      · intro rel fl hic
        simp at hic
      · intro d b rel fl hd hb
        simp at hb
    | ok rels =>
      cases hpick : fu_util_switch_branch_pick (fu_util_switch_branch_st st) values
          rels consoleBranchIdx with
      | error e =>
        have hout : fu_util_switch_branch st values devices (Except.ok rels) consoleDevIdx
            consoleBranchIdx warningOk installResult reportResult =
            ⟨some dev, none, none, Except.error e⟩ := by
          simp only [fu_util_switch_branch, hdev, hpick]
        rw [hout]
        refine ⟨?_, ?_, ?_, ?_⟩
        · intro d hd
          simp only [Option.some.injEq] at hd
          rw [← hd]
        · intro d b hd hb
          simp at hb
        · intro rel fl hic
          simp at hic
        · intro d b rel fl hd hb
          simp at hb
      | ok branch =>
        by_cases hbr : branch = dev.branch
        · have hout : fu_util_switch_branch st values devices (Except.ok rels) consoleDevIdx
              consoleBranchIdx warningOk installResult reportResult =
              ⟨some dev, some branch, none,
                Except.error ⟨FwupdErrorKind.notSupported,
                  "Device " ++ dev.name ++ " is already on that branch"⟩⟩ := by
            simp only [fu_util_switch_branch, hdev, hpick, if_pos hbr]
          rw [hout]
          refine ⟨?_, ?_, ?_, ?_⟩
          · intro d hd
            simp only [Option.some.injEq] at hd
            rw [← hd]
          · intro d b hd hb hbd
            simp only [Option.some.injEq] at hd hb
            subst hd
            subst hb
            exact ⟨rfl, _, rfl⟩
          · intro rel fl hic
            simp at hic
          · intro d b rel fl hd hb hic
            simp at hic
        · cases hfind : rels.find? (fun r => r.branch == branch) with
          | none =>
            have hout : fu_util_switch_branch st values devices (Except.ok rels) consoleDevIdx
                consoleBranchIdx warningOk installResult reportResult =
                ⟨some dev, some branch, none,
                  Except.error ⟨FwupdErrorKind.notSupported, "No releases for that branch"⟩⟩ := by
              simp only [fu_util_switch_branch, hdev, hpick, if_neg hbr, hfind]
            rw [hout]
            refine ⟨?_, ?_, ?_, ?_⟩
            · intro d hd
              simp only [Option.some.injEq] at hd
              rw [← hd]
            · intro d b hd hb hbd
              simp only [Option.some.injEq] at hd hb
              subst hd
              subst hb
              exact absurd hbd hbr
            · intro rel fl hic
              simp at hic
            · intro d b rel fl hd hb hic
              simp at hic
          | some rel0 =>
            have hrel0 : rel0.branch = branch := by
              have hb := List.find?_some hfind
              exact eq_of_beq hb
            by_cases hw : warningOk = true
            · cases hins : installResult with
              | error e =>
                have hout : fu_util_switch_branch st values devices (Except.ok rels)
                    consoleDevIdx consoleBranchIdx warningOk (Except.error e) reportResult =
                    ⟨some dev, some branch,
                      some (rel0, st.flags ++ [FwupdInstallFlag.allowReinstall,
                        FwupdInstallFlag.allowBranchSwitch]),
                      Except.error e⟩ := by
                  simp [fu_util_switch_branch, hdev, hpick, hbr, hfind, hw, hfl]
                rw [hout]
                refine ⟨?_, ?_, ?_, ?_⟩
                · intro d hd
                  simp only [Option.some.injEq] at hd
                  rw [← hd]
                · intro d b hd hb hbd
                  simp only [Option.some.injEq] at hd hb
                  subst hd
                  subst hb
                  exact absurd hbd hbr
                · intro rel fl hic
                  simp only [Option.some.injEq, Prod.mk.injEq] at hic
                  exact hic.2.symm
                · intro d b rel fl hd hb hic
                  simp only [Option.some.injEq, Prod.mk.injEq] at hd hb hic
                  subst hd
                  subst hb
                  rw [← hic.1]
                  exact ⟨hrel0, hbr⟩
              | ok u =>
                cases hrep : reportResult with
                | error e =>
                  have hout : fu_util_switch_branch st values devices (Except.ok rels)
                      consoleDevIdx consoleBranchIdx warningOk (Except.ok u)
                      (Except.error e) =
                      ⟨some dev, some branch,
                        some (rel0, st.flags ++ [FwupdInstallFlag.allowReinstall,
                          FwupdInstallFlag.allowBranchSwitch]),
                        Except.error e⟩ := by
                    simp [fu_util_switch_branch, hdev, hpick, hbr, hfind, hw, hfl]
                  rw [hout]
                  refine ⟨?_, ?_, ?_, ?_⟩
                  · intro d hd
                    simp only [Option.some.injEq] at hd
                    rw [← hd]
                  · intro d b hd hb hbd
                    simp only [Option.some.injEq] at hd hb
                    subst hd
                    subst hb
                    exact absurd hbd hbr
                  · intro rel fl hic
                    simp only [Option.some.injEq, Prod.mk.injEq] at hic
                    exact hic.2.symm
                  · intro d b rel fl hd hb hic
                    simp only [Option.some.injEq, Prod.mk.injEq] at hd hb hic
                    subst hd
                    subst hb
                    rw [← hic.1]
                    exact ⟨hrel0, hbr⟩
                | ok v =>
                  have hout : fu_util_switch_branch st values devices (Except.ok rels)
                      consoleDevIdx consoleBranchIdx warningOk (Except.ok u)
                      (Except.ok v) =
                      ⟨some dev, some branch,
                        some (rel0, st.flags ++ [FwupdInstallFlag.allowReinstall,
                          FwupdInstallFlag.allowBranchSwitch]),
                        Except.ok ()⟩ := by
                    simp [fu_util_switch_branch, hdev, hpick, hbr, hfind, hw, hfl]
                  rw [hout]
                  refine ⟨?_, ?_, ?_, ?_⟩
                  · intro d hd
                    simp only [Option.some.injEq] at hd
                    rw [← hd]
                  · intro d b hd hb hbd
                    simp only [Option.some.injEq] at hd hb
                    subst hd
                    subst hb
                    exact absurd hbd hbr
                  · intro rel fl hic
                    simp only [Option.some.injEq, Prod.mk.injEq] at hic
                    exact hic.2.symm
                  · intro d b rel fl hd hb hic
                    simp only [Option.some.injEq, Prod.mk.injEq] at hd hb hic
                    subst hd
                    subst hb
                    rw [← hic.1]
                    exact ⟨hrel0, hbr⟩
            · have hwf : warningOk = false := by
                cases warningOk
                · rfl
                · exact absurd rfl hw
              have hout : fu_util_switch_branch st values devices (Except.ok rels)
                  consoleDevIdx consoleBranchIdx warningOk installResult reportResult =
                  ⟨some dev, some branch, none,
                    Except.error ⟨FwupdErrorKind.nothingToDo, "Request canceled"⟩⟩ := by
                simp [fu_util_switch_branch, hdev, hpick, hbr, hfind, hwf]
              rw [hout]
              refine ⟨?_, ?_, ?_, ?_⟩
              · intro d hd
                simp only [Option.some.injEq] at hd
                rw [← hd]
              · intro d b hd hb hbd
                simp only [Option.some.injEq] at hd hb
                subst hd
                subst hb
                exact absurd hbd hbr
              · intro rel fl hic
                simp at hic
              · intro d b rel fl hd hb hic
                simp at hic

/-- C5 (amended): devices chosen by prompting (no id argument) or by
GUID are filtered to those carrying has-multiple-branches and updatable
(a device named by its plain device-id bypasses that filter); a
destination branch equal to the device's current branch fails with
NotSupported before any install; the install, when reached, carries the
allow-branch-switch (and allow-reinstall) flags and a release whose
branch differs from the device's current branch. -/
theorem C5_switch_branch_policy (st : FuUtilState) (values : List String)
    (devices : List FuDeviceM) (relsResult : Except GErrorM (List FwupdReleaseM))
    (consoleDevIdx consoleBranchIdx : Nat) (warningOk : Bool)
    (installResult reportResult : Except GErrorM Unit) :
    (∀ d, (fu_util_switch_branch st values devices relsResult consoleDevIdx
        consoleBranchIdx warningOk installResult reportResult).chosenDev = some d →
      (values = [] ∨ fwupd_guid_is_valid (values.headD "") = true) →
      d.flags FuDeviceFlag.hasMultipleBranches = true ∧
        d.flags FuDeviceFlag.updatable = true) ∧
    (∀ d b, (fu_util_switch_branch st values devices relsResult consoleDevIdx
        consoleBranchIdx warningOk installResult reportResult).chosenDev = some d →
      (fu_util_switch_branch st values devices relsResult consoleDevIdx
        consoleBranchIdx warningOk installResult reportResult).branchTried = some b →
      b = d.branch →
      (fu_util_switch_branch st values devices relsResult consoleDevIdx
        consoleBranchIdx warningOk installResult reportResult).installCall = none ∧
      ∃ m, (fu_util_switch_branch st values devices relsResult consoleDevIdx
        consoleBranchIdx warningOk installResult reportResult).result =
          Except.error ⟨FwupdErrorKind.notSupported, m⟩) ∧
    (∀ rel fl, (fu_util_switch_branch st values devices relsResult consoleDevIdx
        consoleBranchIdx warningOk installResult reportResult).installCall = some (rel, fl) →
      FwupdInstallFlag.allowBranchSwitch ∈ fl ∧ FwupdInstallFlag.allowReinstall ∈ fl) ∧
    (∀ d b rel fl, (fu_util_switch_branch st values devices relsResult consoleDevIdx
        consoleBranchIdx warningOk installResult reportResult).chosenDev = some d →
      (fu_util_switch_branch st values devices relsResult consoleDevIdx
        consoleBranchIdx warningOk installResult reportResult).branchTried = some b →
      (fu_util_switch_branch st values devices relsResult consoleDevIdx
        consoleBranchIdx warningOk installResult reportResult).installCall = some (rel, fl) →
      rel.branch ≠ d.branch) := by
  have hspec := fu_util_switch_branch_spec st values devices relsResult consoleDevIdx
    consoleBranchIdx warningOk installResult reportResult
  refine ⟨?_, hspec.2.1, ?_, ?_⟩
  · intro d hd hpath
    have hok := hspec.1 d hd
    have hm := fu_util_get_device_or_prompt_filtered (fu_util_switch_branch_st st)
      consoleDevIdx devices values d hok hpath
    constructor
    · refine fwupd_device_match_flags_mem d _ _ hm FuDeviceFlag.hasMultipleBranches ?_
      simp [fu_util_switch_branch_st]
    · refine fwupd_device_match_flags_mem d _ _ hm FuDeviceFlag.updatable ?_
      simp [fu_util_switch_branch_st]
  · intro rel fl hic
    have hfl := hspec.2.2.1 rel fl hic
    rw [hfl]
    constructor
    · simp
    · simp
  · intro d b rel fl hd hb hic
    have h4 := hspec.2.2.2 d b rel fl hd hb hic
    rw [h4.1]
    exact h4.2

/-- Witness for C5's amended theorem: the prompt path with one device
carrying both required flags runs to a successful install, and the
theorem yields the device's flags. -/
theorem C5_switch_branch_policy_witness :
    (⟨"id1", "Dock", "1.0", some "free", [],
        fun f => f == FuDeviceFlag.hasMultipleBranches ||
          f == FuDeviceFlag.updatable⟩ : FuDeviceM).flags
      FuDeviceFlag.hasMultipleBranches = true :=
  ((C5_switch_branch_policy ⟨[], [], [], [], [], false, false⟩ []
      [⟨"id1", "Dock", "1.0", some "free", [],
        fun f => f == FuDeviceFlag.hasMultipleBranches ||
          f == FuDeviceFlag.updatable⟩]
      (Except.ok [⟨"2.0", some "nonfree", []⟩]) 1 1 true
      (Except.ok ()) (Except.ok ())).1
    ⟨"id1", "Dock", "1.0", some "free", [],
      fun f => f == FuDeviceFlag.hasMultipleBranches ||
        f == FuDeviceFlag.updatable⟩
    rfl (Or.inl rfl)).1

/-- C5 counterexample: a device carrying neither has-multiple-branches
nor updatable, named on the command line by its plain device-id, is
selected and installed to -- so switch-branch does not only consider
devices carrying those flags. -/
theorem C5_counterexample :
    ((fu_util_switch_branch ⟨[], [], [], [], [], false, false⟩ ["abc123", "branchB"]
        [⟨"abc123", "Dock", "1.0", some "branchA", [], fun _ => false⟩]
        (Except.ok [⟨"2.0", some "branchB", []⟩]) 1 1 true
        (Except.ok ()) (Except.ok ())).installCall.isSome = true) ∧
    ((⟨"abc123", "Dock", "1.0", some "branchA", [], fun _ => false⟩ : FuDeviceM).flags
        FuDeviceFlag.hasMultipleBranches = false) :=
  ⟨rfl, rfl⟩

/-! ## fu_util_reinstall (C4, selection and gating)
(src/src/fu-tool.c, lines 1793-1867)

The engine start, the device lookup and the release list are oracles, as
with switch-branch.  fu_version_compare is libfwupdplugin code outside
src/: per the spec's Version Comparator it compares two version strings
under a declared format, and it is passed in as the comparator argument.
The device's version format accompanies the device as a separate
argument because the shared device model does not carry that field. -/

/-- The version formats of the spec's Version Comparator. -/
inductive FwupdVersionFormat where
  | plain
  | quad
  | triplet
  | bcd
  | hex
  deriving DecidableEq

/-- What fu_util_reinstall did: the install call it made (release plus
the install flags in force) and its result. -/
structure ReinstallOutcome where
  installCall : Option (FwupdReleaseM × List FwupdInstallFlag)
  result : Except GErrorM Unit

/-- The release-selection loop of fu_util_reinstall: walk the releases,
skip those failing the release filter, and take the first whose version
compares equal (result 0) to the device's version under the device's
version format. -/
def fu_util_reinstall_select (incl excl : List Nat)
    (cmp : String → String → FwupdVersionFormat → Int)
    (version : String) (fmt : FwupdVersionFormat) :
    List FwupdReleaseM → Option FwupdReleaseM
  | [] => none
  | rel_tmp :: rest =>
    if ¬ fwupd_release_match_flags rel_tmp incl excl then
      fu_util_reinstall_select incl excl cmp version fmt rest
    else if cmp rel_tmp.version version fmt = 0 then
      some rel_tmp
    else
      fu_util_reinstall_select incl excl cmp version fmt rest

/-- Translation of fu_util_reinstall: exactly one argument required,
start the engine, look up the device, fetch its releases, select the
version-equal release (NotSupported naming the device when none
matches), set the allow-reinstall install flag, and install.  The
trailing console message and reboot prompt are not modelled. -/
def fu_util_reinstall (st : FuUtilState) (values : List String)
    (startEngineResult : Except GErrorM Unit)
    (devResult : Except GErrorM FuDeviceM) (fmt : FwupdVersionFormat)
    (cmp : String → String → FwupdVersionFormat → Int)
    (relsResult : Except GErrorM (List FwupdReleaseM))
    (installResult : Except GErrorM Unit) : ReinstallOutcome :=
  if values.length ≠ 1 then
    ⟨none, Except.error ⟨FwupdErrorKind.invalidArgs, "Invalid arguments"⟩⟩
  else
    match startEngineResult with
    | Except.error e => ⟨none, Except.error e⟩
    | Except.ok _ =>
      match devResult with
      | Except.error e => ⟨none, Except.error e⟩
      | Except.ok dev =>
        match relsResult with
        | Except.error e => ⟨none, Except.error e⟩
        | Except.ok rels =>
          match fu_util_reinstall_select st.filter_release_include
              st.filter_release_exclude cmp dev.version fmt rels with
          | none =>
            ⟨none, Except.error ⟨FwupdErrorKind.notSupported,
              "Unable to locate release for " ++ dev.name ++ " version " ++ dev.version⟩⟩
          | some rel =>
            let fl := st.flags ++ [FwupdInstallFlag.allowReinstall]
            match installResult with
            | Except.error e => ⟨some (rel, fl), Except.error e⟩
            | Except.ok _ => ⟨some (rel, fl), Except.ok ()⟩

lemma fu_util_reinstall_select_some (incl excl : List Nat)
    (cmp : String → String → FwupdVersionFormat → Int)
    (version : String) (fmt : FwupdVersionFormat) :
    ∀ (rels : List FwupdReleaseM) (rel : FwupdReleaseM),
      fu_util_reinstall_select incl excl cmp version fmt rels = some rel →
      fwupd_release_match_flags rel incl excl = true ∧
        cmp rel.version version fmt = 0 := by
  intro rels
  induction rels with
  | nil =>
    intro rel h
    rw [fu_util_reinstall_select] at h
    cases h
  | cons r rest ih =>
    intro rel h
    rw [fu_util_reinstall_select] at h
    by_cases hm : fwupd_release_match_flags r incl excl = true
    · rw [if_neg (not_not_intro hm)] at h
      by_cases hc : cmp r.version version fmt = 0
      · rw [if_pos hc] at h
        cases h
        exact ⟨hm, hc⟩
      · rw [if_neg hc] at h
        exact ih rel h
    · rw [if_pos hm] at h
      exact ih rel h

lemma fu_util_reinstall_select_none (incl excl : List Nat)
    (cmp : String → String → FwupdVersionFormat → Int)
    (version : String) (fmt : FwupdVersionFormat) :
    ∀ rels : List FwupdReleaseM,
      (∀ r ∈ rels, fwupd_release_match_flags r incl excl = true →
        cmp r.version version fmt ≠ 0) →
      fu_util_reinstall_select incl excl cmp version fmt rels = none := by
  intro rels
  induction rels with
  | nil =>
    intro _
    rw [fu_util_reinstall_select]
  | cons r rest ih =>
    intro hall
    rw [fu_util_reinstall_select]
    by_cases hm : fwupd_release_match_flags r incl excl = true
    · rw [if_neg (not_not_intro hm)]
      rw [if_neg (hall r (List.mem_cons_self r rest) hm)]
      exact ih (fun x hx hmx => hall x (List.mem_cons_of_mem r hx) hmx)
    · rw [if_pos hm]
      exact ih (fun x hx hmx => hall x (List.mem_cons_of_mem r hx) hmx)

/-- C4 (amended): fu_util_reinstall installs only a release that passes
the release filter and whose version compares equal (under the device's
version format) to the device's current version, with the
allow-reinstall flag among the install flags at the install call; when
no release compares equal it fails with NotSupported and installs
nothing.  The payload is then still fully walked -- every one of the
0x4000 body offsets is read -- but fu_fresco_pd_device_set_byte
performs the physical write iff the on-device value differs from the
payload value; a byte already equal is read and skipped, not written. -/
theorem C4_reinstall_body_fill (st : FuUtilState) (values : List String)
    (startEngineResult : Except GErrorM Unit) (devResult : Except GErrorM FuDeviceM)
    (dev : FuDeviceM) (fmt : FwupdVersionFormat)
    (cmp : String → String → FwupdVersionFormat → Int)
    (relsResult : Except GErrorM (List FwupdReleaseM)) (rels : List FwupdReleaseM)
    (installResult : Except GErrorM Unit) (buf mem : Nat → Nat) (j : Nat)
    (hdev : devResult = Except.ok dev) (hrels : relsResult = Except.ok rels)
    (hj : j < 0x4000) :
    (∀ rel fl, (fu_util_reinstall st values startEngineResult devResult fmt cmp
        relsResult installResult).installCall = some (rel, fl) →
      FwupdInstallFlag.allowReinstall ∈ fl ∧
      fwupd_release_match_flags rel st.filter_release_include
        st.filter_release_exclude = true ∧
      cmp rel.version dev.version fmt = 0) ∧
    (values.length = 1 → startEngineResult = Except.ok () →
      (∀ r ∈ rels, fwupd_release_match_flags r st.filter_release_include
          st.filter_release_exclude = true → cmp r.version dev.version fmt ≠ 0) →
      (fu_util_reinstall st values startEngineResult devResult fmt cmp
        relsResult installResult).installCall = none ∧
      (fu_util_reinstall st values startEngineResult devResult fmt cmp
        relsResult installResult).result =
        Except.error ⟨FwupdErrorKind.notSupported,
          "Unable to locate release for " ++ dev.name ++ " version " ++ dev.version⟩) ∧
    (FrescoOp.read (j + 0x2000) ∈ fresco_body_fill_trace buf mem) ∧
    (FrescoOp.write (j + 0x2000) (buf j) ∈ fresco_body_fill_trace buf mem ↔
      mem (j + 0x2000) ≠ buf j) := by
  subst hdev
  subst hrels
  have hbf := fresco_body_fill_go_mem buf 0x4000 0 j mem (Nat.zero_le j) (by omega)
  refine ⟨?_, ?_, ?_, ?_⟩
  · intro rel fl hic
    rw [fu_util_reinstall.eq_def] at hic
    by_cases hv : values.length ≠ 1
    · rw [if_pos hv] at hic
      simp at hic
    · rw [if_neg hv] at hic
      cases hse : startEngineResult with
      | error e => simp [hse] at hic
      | ok u =>
        simp only [hse] at hic
        cases hsel : fu_util_reinstall_select st.filter_release_include
            st.filter_release_exclude cmp dev.version fmt rels with
        | none => simp [hsel] at hic
        | some rel0 =>
          simp only [hsel] at hic
          have hs := fu_util_reinstall_select_some st.filter_release_include
            st.filter_release_exclude cmp dev.version fmt rels rel0 hsel
          cases hins : installResult with
          | error e =>
            simp only [hins, Option.some.injEq, Prod.mk.injEq] at hic
            refine ⟨?_, ?_, ?_⟩
            · rw [← hic.2]
              simp
            · rw [← hic.1]
              exact hs.1
            · rw [← hic.1]
              exact hs.2
          | ok u2 =>
            simp only [hins, Option.some.injEq, Prod.mk.injEq] at hic
            refine ⟨?_, ?_, ?_⟩
            · rw [← hic.2]
              simp
            · rw [← hic.1]
              exact hs.1
            · rw [← hic.1]
              exact hs.2
  · intro hv1 hse hnone
    subst hse
    have hsel := fu_util_reinstall_select_none st.filter_release_include
      st.filter_release_exclude cmp dev.version fmt rels hnone
    have hout : fu_util_reinstall st values (Except.ok ()) (Except.ok dev) fmt cmp
        (Except.ok rels) installResult =
        ⟨none, Except.error ⟨FwupdErrorKind.notSupported,
          "Unable to locate release for " ++ dev.name ++ " version " ++ dev.version⟩⟩ := by
      simp [fu_util_reinstall, hv1, hsel]
    rw [hout]
    exact ⟨rfl, rfl⟩
  · rw [fresco_body_fill_trace]
    exact hbf.1
  · rw [fresco_body_fill_trace]
    exact hbf.2

/-- Witness for C4's amended theorem: a device at version 1.2.3.4 with
two candidate releases; the version-equal one is selected and installed
with allow-reinstall set, and body byte 5 (differing on-device) is read. -/
theorem C4_reinstall_body_fill_witness :
    FwupdInstallFlag.allowReinstall ∈ [FwupdInstallFlag.allowReinstall] ∧
    FrescoOp.read (5 + 0x2000) ∈ fresco_body_fill_trace (fun _ => 7) (fun _ => 0) := by
  have h := C4_reinstall_body_fill ⟨[], [], [], [], [], false, false⟩ ["a1b2c3"]
    (Except.ok ())
    (Except.ok ⟨"a1b2c3", "Fresco PD", "1.2.3.4", none, [], fun _ => false⟩)
    ⟨"a1b2c3", "Fresco PD", "1.2.3.4", none, [], fun _ => false⟩
    FwupdVersionFormat.quad
    (fun a b _ => if a = b then 0 else 1)
    (Except.ok [⟨"1.2.3.5", none, []⟩, ⟨"1.2.3.4", none, []⟩])
    [⟨"1.2.3.5", none, []⟩, ⟨"1.2.3.4", none, []⟩]
    (Except.ok ()) (fun _ => 7) (fun _ => 0) 5 rfl rfl (by omega)
  exact ⟨(h.1 ⟨"1.2.3.4", none, []⟩ [FwupdInstallFlag.allowReinstall] rfl).1, h.2.2.1⟩
